import Mathlib

/-!
Shallow embedding of the core of the `musicbrainz-mcp-server` repository:
the MBID validator (`src/musicbrainz_mcp/utils.py`, class `MBIDUtils`),
the TTL cache (`utils.py`, class `CacheUtils`), the rate-limited HTTP
client with its error taxonomy (`src/musicbrainz_mcp/musicbrainz_client.py`
and `exceptions.py`), the configuration dataclass validation
(`src/musicbrainz_mcp/config.py`, `APIConfig.__post_init__`), and the
client lifecycle logic (`src/musicbrainz_mcp/server.py`, `get_client` /
`configure_client_from_env`).

Modelling conventions:
* Python `float` wall-clock times, rate limits, timeouts and TTLs are
  modelled as rationals (`ℚ`); `asyncio.sleep d` is modelled as advancing
  the clock by exactly `d` (an idealized timer).
* Python exceptions become `Except` results; the distinct exception
  classes of `exceptions.py` become the constructors of `MBError`.
* `time.time()` samples are inputs (`now` parameters); the transport
  outcome of an HTTP GET (`httpx` response / timeout / connect error) is
  an input of type `HttpOutcome`.
* Python dicts used as caches are association lists with at most one
  binding per key; dict truthiness (`if config:`) and string truthiness
  are modelled explicitly.
-/

/-! ### Python string primitives used by the source -/

/-- The six ASCII whitespace characters stripped by Python's `str.strip()`
(the source only ever strips ASCII text). -/
def pywsChar (c : Char) : Bool :=
  c = ' ' || c = '\t' || c = '\n' || c = '\r' || c = '\x0b' || c = '\x0c'

/-- Python `str.strip()` on the underlying character list: drop whitespace from
both ends. -/
def pystripL (cs : List Char) : List Char :=
  ((cs.dropWhile pywsChar).reverse.dropWhile pywsChar).reverse

/-- Python `s.strip()`. -/
def pystrip (s : String) : String :=
  ⟨pystripL s.data⟩

/-- ASCII lower-casing of one character, as Python `str.lower()` does on
ASCII input (all strings handled by the modelled code are ASCII). -/
def pyLowerChar (c : Char) : Char :=
  if 'A' ≤ c ∧ c ≤ 'Z' then Char.ofNat (c.toNat + 32) else c

/-- Python `s.lower()` on ASCII strings. -/
def pyLower (s : String) : String :=
  ⟨s.data.map pyLowerChar⟩

/-- A hexadecimal digit as accepted by the pattern `[0-9a-f]` compiled
with `re.IGNORECASE`. -/
def isHexCI (c : Char) : Bool :=
  ('0' ≤ c && c ≤ '9') || ('a' ≤ c && c ≤ 'f') || ('A' ≤ c && c ≤ 'F')

/-- Whether character position `i` of the 36-character UUID pattern
`[0-9a-f]{8}-[0-9a-f]{4}-[0-9a-f]{4}-[0-9a-f]{4}-[0-9a-f]{12}` must be a
hyphen. -/
def uuidHyphenPos (i : Nat) : Bool :=
  i = 8 || i = 13 || i = 18 || i = 23

/-- The body of the UUID regular expression used throughout the source
(`utils.py` line 40, `musicbrainz_client.py` line 117): exactly 36
characters, hyphens at positions 8, 13, 18, 23, case-insensitive hex
digits everywhere else. -/
def uuidCore (cs : List Char) : Bool :=
  cs.length = 36 &&
    (List.range 36).all fun i =>
      if uuidHyphenPos i then cs.getD i ' ' = '-' else isHexCI (cs.getD i ' ')

/-- Python's `re.match` with the anchored pattern `^...$`: the `$` anchor
also matches just before a single trailing newline, so a string that is a
well-formed UUID followed by one final `'\n'` matches as well. -/
def pyMatchUUID (s : String) : Bool :=
  uuidCore s.data ||
    (s.data.getLast? = some '\n' && uuidCore s.data.dropLast)

/-- The 25 characters CPython strips around the numeric literal inside
`int(str)` (determined exhaustively against CPython 3.11.6 / Unicode
14.0.0 by testing `int(c + "5" + c)` for every code point). Note this
set is strictly smaller than `str.isspace()`: the separators
U+001C-U+001F are whitespace to `str.strip()` but rejected by `int()`. -/
def pyIntWsChar (c : Char) : Bool :=
  c.toNat ∈ [0x9, 0xa, 0xb, 0xc, 0xd, 0x20, 0x85, 0xa0, 0x1680,
    0x2000, 0x2001, 0x2002, 0x2003, 0x2004, 0x2005, 0x2006, 0x2007,
    0x2008, 0x2009, 0x200a, 0x2028, 0x2029, 0x202f, 0x205f, 0x3000]

/-- Strip the `int()` whitespace set from both ends of the argument. -/
def pyIntStripL (cs : List Char) : List Char :=
  ((cs.dropWhile pyIntWsChar).reverse.dropWhile pyIntWsChar).reverse

/-- The start code points of the 66 runs of ten consecutive Unicode
decimal digits (category Nd, Unicode 14.0.0, the digits `int()`
accepts): the character at `s + v` is the digit of value `v`. The table
was generated by enumerating every code point `c` with `int(c)`
defined under CPython 3.11.6 and verifying the run structure. -/
def pyDigitRunStarts : List Nat :=
  [0x30, 0x660, 0x6f0, 0x7c0, 0x966, 0x9e6, 0xa66, 0xae6, 0xb66, 0xbe6,
   0xc66, 0xce6, 0xd66, 0xde6, 0xe50, 0xed0, 0xf20, 0x1040, 0x1090,
   0x17e0, 0x1810, 0x1946, 0x19d0, 0x1a80, 0x1a90, 0x1b50, 0x1bb0,
   0x1c40, 0x1c50, 0xa620, 0xa8d0, 0xa900, 0xa9d0, 0xa9f0, 0xaa50,
   0xabf0, 0xff10, 0x104a0, 0x10d30, 0x11066, 0x110f0, 0x11136,
   0x111d0, 0x112f0, 0x11450, 0x114d0, 0x11650, 0x116c0, 0x11730,
   0x118e0, 0x11950, 0x11c50, 0x11d50, 0x11da0, 0x16a60, 0x16ac0,
   0x16b50, 0x1d7ce, 0x1d7d8, 0x1d7e2, 0x1d7ec, 0x1d7f6, 0x1e140,
   0x1e2f0, 0x1e950, 0x1fbf0]

/-- The decimal value of one character as `int()` sees it: `v` when the
character sits at offset `v` inside one of the ten-digit runs, `none`
otherwise. -/
def pyDigitVal (c : Char) : Option Nat :=
  (pyDigitRunStarts.find? fun s => s ≤ c.toNat && c.toNat < s + 10).map
    fun s => c.toNat - s

/-- The tail of a PEP 515 digit part, after at least one digit has been
read into `acc`: further digits, with a single underscore permitted only
between two digits (`int("1_0") == 10`, while `"1_"`, `"_1"` and
`"1__0"` all raise `ValueError`). -/
def pyDigitsRest (acc : Nat) : List Char → Option Nat
  | [] => some acc
  | '_' :: c :: rest =>
    match pyDigitVal c with
    | some d => pyDigitsRest (acc * 10 + d) rest
    | none => none
  | ['_'] => none
  | c :: rest =>
    match pyDigitVal c with
    | some d => pyDigitsRest (acc * 10 + d) rest
    | none => none

/-- A full PEP 515 digit part: one digit, then `pyDigitsRest`. -/
def pyIntDigits (cs : List Char) : Option Nat :=
  match cs with
  | [] => none
  | c :: rest =>
    match pyDigitVal c with
    | some d => pyDigitsRest d rest
    | none => none

/-- Python `int(s)` for a string argument: strips the `int()` whitespace
set, accepts one optional ASCII sign followed by a PEP 515 digit part
over the Unicode decimal digits, and raises `ValueError` (here: `none`)
otherwise. The CPython >= 3.11 configurable conversion limit
(`sys.int_max_str_digits`, default 4300 digits, absent in older
versions) is deliberately not modelled: it is environment-dependent and
only affects literals of at least 640 digits. -/
def pyInt (s : String) : Option Int :=
  match pyIntStripL s.data with
  | '+' :: rest => (pyIntDigits rest).map Int.ofNat
  | '-' :: rest => (pyIntDigits rest).map fun n => -(n : Int)
  | cs => (pyIntDigits cs).map Int.ofNat

/-! ### MBIDUtils (`utils.py` lines 22-62) -/

/-- Source `MBIDUtils.validate_mbid` (`utils.py` lines 25-43): false for the
empty string (Python falsiness of `mbid`), otherwise matches the stripped
string against the anchored case-insensitive UUID pattern. The
`isinstance` guard is vacuous in this typed embedding. -/
def validate_mbid (mbid : String) : Bool :=
  if mbid = "" then false else pyMatchUUID (pystrip mbid)

/-- Source `MBIDUtils.normalize_mbid` (`utils.py` lines 45-62): validates first
and raises `ValueError` on failure; on success returns
`mbid.strip().lower()`. -/
def normalize_mbid (mbid : String) : Except String String :=
  if validate_mbid mbid then .ok (pyLower (pystrip mbid))
  else .error ("Invalid MBID format: " ++ mbid)

/-! ### CacheUtils (`utils.py` lines 267-384) -/

/-- One cache entry, the dict literal stored by `CacheUtils.set`
(`utils.py` lines 321-325). -/
structure CacheEntry (α : Type) where
  value : α
  expires_at : ℚ
  created_at : ℚ
deriving Repr, DecidableEq

/-- The cache state: `self._cache` as an association list with at most
one binding per key, plus `self._default_ttl`. -/
structure PyCache (α : Type) where
  entries : List (String × CacheEntry α)
  default_ttl : ℚ
deriving Repr, DecidableEq

/-- Dict lookup `self._cache[key]` (first binding for the key). -/
def PyCache.lookupEntry (c : PyCache α) (key : String) : Option (CacheEntry α) :=
  (c.entries.find? fun p => p.1 = key).map Prod.snd

/-- Dict deletion `del self._cache[key]`. -/
def eraseKey (l : List (String × CacheEntry α)) (key : String) :
    List (String × CacheEntry α) :=
  l.filter fun p => p.1 ≠ key

/-- Dict assignment `self._cache[key] = entry`: replaces an existing
binding in place, otherwise appends. -/
def setKey (l : List (String × CacheEntry α)) (key : String) (e : CacheEntry α) :
    List (String × CacheEntry α) :=
  if l.any fun p => p.1 = key then
    l.map fun p => if p.1 = key then (key, e) else p
  else l ++ [(key, e)]

/-- Source `CacheUtils.get` (`utils.py` lines 289-307): `None` if the key is
absent; if `time.time() > expires_at` the entry is deleted and `None` is
returned; otherwise the stored value. Returns the (possibly updated)
cache together with the result. -/
def PyCache.get (c : PyCache α) (key : String) (now : ℚ) :
    PyCache α × Option α :=
  match c.lookupEntry key with
  | none => (c, none)
  | some e =>
    if now > e.expires_at then
      ({ c with entries := eraseKey c.entries key }, none)
    else (c, some e.value)

/-- Source `CacheUtils.set` (`utils.py` lines 309-325): stores the value with
`expires_at = time.time() + (ttl if ttl is not None else default_ttl)`. -/
def PyCache.set (c : PyCache α) (key : String) (value : α) (ttl : Option ℚ)
    (now : ℚ) : PyCache α :=
  let t := ttl.getD c.default_ttl
  { c with entries := setKey c.entries key ⟨value, now + t, now⟩ }

/-- Source `CacheUtils.delete` (`utils.py` lines 327-340). -/
def PyCache.delete (c : PyCache α) (key : String) : PyCache α × Bool :=
  if (c.lookupEntry key).isSome then
    ({ c with entries := eraseKey c.entries key }, true)
  else (c, false)

/-- Source `CacheUtils.clear` (`utils.py` lines 342-344). -/
def PyCache.clear (c : PyCache α) : PyCache α :=
  { c with entries := [] }

/-- Source `CacheUtils.cleanup_expired` (`utils.py` lines 346-362): collects the
keys whose entry satisfies `current_time > expires_at`, deletes each, and
returns the count of collected keys. -/
def PyCache.cleanup_expired (c : PyCache α) (now : ℚ) : PyCache α × Nat :=
  let expiredKeys :=
    (c.entries.filter fun p => now > p.2.expires_at).map Prod.fst
  ({ c with entries := expiredKeys.foldl eraseKey c.entries }, expiredKeys.length)

/-- Snapshot returned by `CacheUtils.stats` (`utils.py` lines 364-384);
the `memory_usage_bytes` field is omitted (it measures Python object
printing, not cache content). -/
structure CacheStats where
  total_entries : Nat
  expired_entries : Nat
  active_entries : Nat
deriving Repr, DecidableEq

/-- Source `CacheUtils.stats` (`utils.py` lines 364-384). -/
def PyCache.stats (c : PyCache α) (now : ℚ) : CacheStats :=
  let expired := (c.entries.filter fun p => now > p.2.expires_at).length
  ⟨c.entries.length, expired, c.entries.length - expired⟩

/-! ### Error taxonomy (`exceptions.py`) -/

/-- The closed set of failure kinds of `exceptions.py`, one constructor
per exception class. Each carries its message; the classes that pin a
status code or extra context carry it as well:
`MusicBrainzBadRequestError` (status 400), `MusicBrainzNotFoundError`
(status 404), `MusicBrainzRateLimitError` (status 503, optional
`retry_after` seconds), `MusicBrainzAPIError` (status code and optional
response text), and the status-less validation / timeout / connection
errors. -/
inductive MBError where
  | validation (msg : String)
  | badRequest (msg : String)
  | notFound (msg : String)
  | rateLimit (msg : String) (retry_after : Option Int)
  | timeoutErr (msg : String)
  | connection (msg : String)
  | api (msg : String) (status_code : Int) (response_text : Option String)
deriving Repr, DecidableEq

/-- The `status_code` field as stored on each exception instance (`exceptions.py`):
the base-class constructor leaves it `None` for validation, timeout and
connection errors. -/
def MBError.statusCode : MBError → Option Int
  | .validation _ => none
  | .badRequest _ => some 400
  | .notFound _ => some 404
  | .rateLimit _ _ => some 503
  | .timeoutErr _ => none
  | .connection _ => none
  | .api _ c _ => some c

/-- Whether an error is the `MusicBrainzRateLimitError` variant. -/
def MBError.isRateLimit : MBError → Bool
  | .rateLimit _ _ => true
  | _ => false

/-- Whether an error is the `MusicBrainzValidationError` variant. -/
def MBError.isValidation : MBError → Bool
  | .validation _ => true
  | _ => false

/-! ### RateLimiter (`musicbrainz_client.py`, `_rate_limit`, lines 98-110) -/

/-- One execution of the body of `MusicBrainzClient._rate_limit` under
its lock: given the configured rate, the stored `_last_request_time` and
the sampled `time.time()` at entry, return the new `_last_request_time`
(the permit grant time). If less than `min_interval = 1 / rate` has
elapsed the task sleeps for the deficit and resamples the clock, so the
grant lands exactly at `last + 1 / rate` under the idealized timer;
otherwise the grant is the entry sample itself. The whole body runs
inside `self._rate_limit_lock`, so concurrent `acquire()` calls execute
these steps one after another. -/
def acquireGrant (rate last now : ℚ) : ℚ :=
  if now - last < 1 / rate then last + 1 / rate else now

/-- Permit grant times of a sequence of serialized `_rate_limit` calls:
`last` is the stored `_last_request_time` and `nows` the successive
`time.time()` samples at entry to the critical section. -/
def grantTimes (rate : ℚ) : ℚ → List ℚ → List ℚ
  | _, [] => []
  | last, now :: rest =>
    let g := acquireGrant rate last now
    g :: grantTimes rate g rest

/-! ### MusicBrainzClient (`musicbrainz_client.py`) -/

/-- One HTTP GET issued by `_make_request`: the endpoint appended to the
base URL and the final query parameters (with `fmt=json` forced). -/
structure HttpRequest where
  endpoint : String
  params : List (String × String)
deriving Repr, DecidableEq

/-- The mutable state of one `MusicBrainzClient` instance: its
configuration fields from `__init__` (lines 42-68), the rate-limiter
state `_last_request_time`, and an instrumentation log of every HTTP GET
actually issued (empty at construction — no network activity yet). -/
structure ClientState where
  user_agent : String
  rate_limit : ℚ
  timeout : ℚ
  base_url : String
  lastRequestTime : ℚ
  requests : List HttpRequest
deriving Repr, DecidableEq

/-- Source `MusicBrainzClient.BASE_URL`. -/
def clientBaseURL : String := "https://musicbrainz.org/ws/2"

/-- Source `MusicBrainzClient.DEFAULT_USER_AGENT`. -/
def clientDefaultUserAgent : String :=
  "MusicBrainzMCP/0.1.0 (https://github.com/yourusername/musicbrainz-mcp)"

/-- Source `MusicBrainzClient.__init__` (lines 42-68): assigns the four
configuration fields (with defaults for `None` arguments) and initializes
`_last_request_time = 0.0`. The constructor performs no validation and
never raises, so it is wrapped in `Except` only to make the (absent)
failure path comparable with the spec's description; it always returns
`.ok`. -/
def clientInit (user_agent : Option String) (rate_limit : ℚ) (timeout : ℚ)
    (base_url : Option String) : Except MBError ClientState :=
  .ok { user_agent := user_agent.getD clientDefaultUserAgent
        rate_limit := rate_limit
        timeout := timeout
        base_url := base_url.getD clientBaseURL
        lastRequestTime := 0
        requests := [] }

/-- Source `MusicBrainzClient._validate_mbid` (lines 112-122): anchored
case-insensitive UUID match on the raw argument (no `strip()`), raising
`MusicBrainzValidationError` on mismatch. -/
def client_validate_mbid (mbid : String) : Except MBError Unit :=
  if pyMatchUUID mbid then .ok ()
  else .error (.validation ("Invalid MBID format: " ++ mbid))

/-- The transport outcome of the `httpx` GET inside `_make_request`: a
response (status, body text, optional `Retry-After` header value, JSON
payload), a transport timeout (`httpx.TimeoutException`), or a connect
failure (`httpx.ConnectError`). -/
inductive HttpOutcome where
  | response (status : Nat) (text : String) (retryAfterHeader : Option String)
      (json : String)
  | timeoutExc (msg : String)
  | connectExc (msg : String)
deriving Repr, DecidableEq

/-- Python `httpx.Response.is_success`: status in the 2xx range. -/
def isSuccessStatus (status : Nat) : Bool :=
  200 ≤ status && status < 300

/-- Source `MusicBrainzClient._handle_http_error` (lines 124-143). The result
is the `MusicBrainzError` it raises; the `.error` branch is the
`ValueError` escaping from `int(retry_after)` when the `Retry-After`
header is a truthy non-integer string. -/
def handle_http_error (status : Nat) (text : String)
    (retryAfterHeader : Option String) : Except String MBError :=
  if status = 400 then .ok (.badRequest ("Bad request: " ++ text))
  else if status = 404 then .ok (.notFound ("Resource not found: " ++ text))
  else if status = 503 then
    match retryAfterHeader with
    | none => .ok (.rateLimit "Rate limit exceeded" none)
    | some h =>
      if h = "" then .ok (.rateLimit "Rate limit exceeded" none)
      else
        match pyInt h with
        | some n => .ok (.rateLimit "Rate limit exceeded" (some n))
        | none => .error ("invalid literal for int() with base 10: " ++ h)
  else .ok (.api ("HTTP " ++ toString status ++ " error") status (some text))

/-- Source `MusicBrainzClient._make_request` (lines 145-192): acquires the rate
limiter permit (mutating `_last_request_time`), forces `fmt=json` into
the parameters, issues the GET, and maps every failure into the error
taxonomy: non-2xx responses through `_handle_http_error`,
`httpx.TimeoutException` to `MusicBrainzTimeoutError`,
`httpx.ConnectError` to `MusicBrainzConnectionError`, and any other
escaping exception (such as the `ValueError` from `int(retry_after)`) to
`MusicBrainzAPIError` with sentinel status code 0. -/
def make_request (s : ClientState) (now : ℚ) (endpoint : String)
    (params : List (String × String)) (out : HttpOutcome) :
    ClientState × Except MBError String :=
  let s1 := { s with lastRequestTime := acquireGrant s.rate_limit s.lastRequestTime now }
  let fullParams := params ++ [("fmt", "json")]
  let s2 := { s1 with requests := s1.requests ++ [⟨endpoint, fullParams⟩] }
  match out with
  | .response status text retryAfterHeader json =>
    if isSuccessStatus status then (s2, .ok json)
    else
      match handle_http_error status text retryAfterHeader with
      | .ok e => (s2, .error e)
      | .error ve => (s2, .error (.api ("Unexpected error: " ++ ve) 0 none))
  | .timeoutExc msg => (s2, .error (.timeoutErr ("Request timed out: " ++ msg)))
  | .connectExc msg => (s2, .error (.connection ("Connection error: " ++ msg)))

/-- The shared validation-and-request body of the four search entry
points `search_artist` / `search_release` / `search_recording` /
`search_release_group` (`musicbrainz_client.py` lines 194-328), which
repeat this code verbatim with different endpoints: reject an
empty/whitespace-only query, a limit outside [1, 100] and a negative
offset with `MusicBrainzValidationError` before calling
`_make_request`. -/
def search_entity (endpoint : String) (query : String) (limit offset : Int)
    (s : ClientState) (now : ℚ) (out : HttpOutcome) :
    ClientState × Except MBError String :=
  if pystrip query = "" then
    (s, .error (.validation "Query cannot be empty"))
  else if limit < 1 ∨ limit > 100 then
    (s, .error (.validation "Limit must be between 1 and 100"))
  else if offset < 0 then
    (s, .error (.validation "Offset must be non-negative"))
  else
    make_request s now endpoint
      [("query", query), ("limit", toString limit), ("offset", toString offset)] out

/-- Source `MusicBrainzClient.search_artist` (lines 194-226). -/
def search_artist (query : String) (limit offset : Int) (s : ClientState)
    (now : ℚ) (out : HttpOutcome) : ClientState × Except MBError String :=
  search_entity "artist" query limit offset s now out

/-- Source `MusicBrainzClient.search_release` (lines 228-260). -/
def search_release (query : String) (limit offset : Int) (s : ClientState)
    (now : ℚ) (out : HttpOutcome) : ClientState × Except MBError String :=
  search_entity "release" query limit offset s now out

/-- Source `MusicBrainzClient.search_recording` (lines 262-294). -/
def search_recording (query : String) (limit offset : Int) (s : ClientState)
    (now : ℚ) (out : HttpOutcome) : ClientState × Except MBError String :=
  search_entity "recording" query limit offset s now out

/-- Source `MusicBrainzClient.search_release_group` (lines 296-328). -/
def search_release_group (query : String) (limit offset : Int) (s : ClientState)
    (now : ℚ) (out : HttpOutcome) : ClientState × Except MBError String :=
  search_entity "release-group" query limit offset s now out

/-- The `inc` parameter construction shared by the lookup entry points:
`params["inc"] = "+".join(inc)` only when the list argument is truthy
(present and non-empty). -/
def incParams (inc : Option (List String)) : List (String × String) :=
  match inc with
  | some (x :: xs) => [("inc", String.intercalate "+" (x :: xs))]
  | _ => []

/-- The shared body of `lookup_artist` / `lookup_release` /
`lookup_recording` / `lookup_release_group` (lines 330-420): validate the
MBID with `_validate_mbid`, then request `{entity}/{mbid}`. -/
def lookup_entity (entity : String) (mbid : String) (inc : Option (List String))
    (s : ClientState) (now : ℚ) (out : HttpOutcome) :
    ClientState × Except MBError String :=
  match client_validate_mbid mbid with
  | .error e => (s, .error e)
  | .ok _ => make_request s now (entity ++ "/" ++ mbid) (incParams inc) out

/-- Source `MusicBrainzClient.lookup_artist` (lines 330-351). -/
def lookup_artist (mbid : String) (inc : Option (List String)) (s : ClientState)
    (now : ℚ) (out : HttpOutcome) : ClientState × Except MBError String :=
  lookup_entity "artist" mbid inc s now out

/-- Source `MusicBrainzClient.lookup_release` (lines 353-374). -/
def lookup_release (mbid : String) (inc : Option (List String)) (s : ClientState)
    (now : ℚ) (out : HttpOutcome) : ClientState × Except MBError String :=
  lookup_entity "release" mbid inc s now out

/-- Source `MusicBrainzClient.lookup_recording` (lines 376-397). -/
def lookup_recording (mbid : String) (inc : Option (List String)) (s : ClientState)
    (now : ℚ) (out : HttpOutcome) : ClientState × Except MBError String :=
  lookup_entity "recording" mbid inc s now out

/-- Source `MusicBrainzClient.lookup_release_group` (lines 399-420). -/
def lookup_release_group (mbid : String) (inc : Option (List String))
    (s : ClientState) (now : ℚ) (out : HttpOutcome) :
    ClientState × Except MBError String :=
  lookup_entity "release-group" mbid inc s now out

/-- The optional pipe-joined filter parameters of
`browse_artist_releases`: added only when the list argument is truthy. -/
def pipeParam (name : String) (l : Option (List String)) : List (String × String) :=
  match l with
  | some (x :: xs) => [(name, String.intercalate "|" (x :: xs))]
  | _ => []

/-- Source `MusicBrainzClient.browse_artist_releases` (lines 422-463): validate
the artist MBID, the limit and the offset, then browse `release` with
`artist`, `limit`, `offset` and the optional `type` / `status` filters. -/
def browse_artist_releases (artist_mbid : String) (limit offset : Int)
    (release_type release_status : Option (List String)) (s : ClientState)
    (now : ℚ) (out : HttpOutcome) : ClientState × Except MBError String :=
  match client_validate_mbid artist_mbid with
  | .error e => (s, .error e)
  | .ok _ =>
    if limit < 1 ∨ limit > 100 then
      (s, .error (.validation "Limit must be between 1 and 100"))
    else if offset < 0 then
      (s, .error (.validation "Offset must be non-negative"))
    else
      make_request s now "release"
        ([("artist", artist_mbid), ("limit", toString limit),
          ("offset", toString offset)]
          ++ pipeParam "type" release_type ++ pipeParam "status" release_status) out

/-- Source `MusicBrainzClient.browse_artist_recordings` (lines 465-496). -/
def browse_artist_recordings (artist_mbid : String) (limit offset : Int)
    (s : ClientState) (now : ℚ) (out : HttpOutcome) :
    ClientState × Except MBError String :=
  match client_validate_mbid artist_mbid with
  | .error e => (s, .error e)
  | .ok _ =>
    if limit < 1 ∨ limit > 100 then
      (s, .error (.validation "Limit must be between 1 and 100"))
    else if offset < 0 then
      (s, .error (.validation "Offset must be non-negative"))
    else
      make_request s now "recording"
        [("artist", artist_mbid), ("limit", toString limit),
         ("offset", toString offset)] out

/-- The `valid_types` allow-list of `lookup_by_mbid` (lines 515-518). -/
def validEntityTypes : List String :=
  ["artist", "release", "recording", "release-group",
   "label", "work", "area", "place", "event", "instrument", "series", "url"]

/-- Source `MusicBrainzClient.lookup_by_mbid` (lines 498-532): checks the entity
type against the allow-list, then validates the MBID, then requests
`{entity_type}/{mbid}`. -/
def lookup_by_mbid (entity_type : String) (mbid : String)
    (inc : Option (List String)) (s : ClientState) (now : ℚ) (out : HttpOutcome) :
    ClientState × Except MBError String :=
  if entity_type ∉ validEntityTypes then
    (s, .error (.validation ("Invalid entity type: " ++ entity_type)))
  else
    match client_validate_mbid mbid with
    | .error e => (s, .error e)
    | .ok _ => make_request s now (entity_type ++ "/" ++ mbid) (incParams inc) out

/-- One call to any public entry point of `MusicBrainzClient`, with its
arguments. -/
inductive EntryCall where
  | searchArtist (query : String) (limit offset : Int)
  | searchRelease (query : String) (limit offset : Int)
  | searchRecording (query : String) (limit offset : Int)
  | searchReleaseGroup (query : String) (limit offset : Int)
  | lookupArtist (mbid : String) (inc : Option (List String))
  | lookupRelease (mbid : String) (inc : Option (List String))
  | lookupRecording (mbid : String) (inc : Option (List String))
  | lookupReleaseGroup (mbid : String) (inc : Option (List String))
  | browseArtistReleases (artist_mbid : String) (limit offset : Int)
      (release_type release_status : Option (List String))
  | browseArtistRecordings (artist_mbid : String) (limit offset : Int)
  | lookupByMbid (entity_type : String) (mbid : String) (inc : Option (List String))
deriving Repr, DecidableEq

/-- Dispatch one entry-point call against a client state. -/
def runEntry : EntryCall → ClientState → ℚ → HttpOutcome →
    ClientState × Except MBError String
  | .searchArtist q l o => search_artist q l o
  | .searchRelease q l o => search_release q l o
  | .searchRecording q l o => search_recording q l o
  | .searchReleaseGroup q l o => search_release_group q l o
  | .lookupArtist m i => lookup_artist m i
  | .lookupRelease m i => lookup_release m i
  | .lookupRecording m i => lookup_recording m i
  | .lookupReleaseGroup m i => lookup_release_group m i
  | .browseArtistReleases m l o t st => browse_artist_releases m l o t st
  | .browseArtistRecordings m l o => browse_artist_recordings m l o
  | .lookupByMbid e m i => lookup_by_mbid e m i

/-- The invalid-input conditions of claim C4, stated per entry point in
the claim's own terms: empty or whitespace-only query, limit outside
[1, 100], negative offset, identifier failing the client's MBID
validation, or (for the generic lookup) an entity category outside the
fixed allow-list. -/
def entryInvalid : EntryCall → Prop
  | .searchArtist q l o => pystrip q = "" ∨ l < 1 ∨ l > 100 ∨ o < 0
  | .searchRelease q l o => pystrip q = "" ∨ l < 1 ∨ l > 100 ∨ o < 0
  | .searchRecording q l o => pystrip q = "" ∨ l < 1 ∨ l > 100 ∨ o < 0
  | .searchReleaseGroup q l o => pystrip q = "" ∨ l < 1 ∨ l > 100 ∨ o < 0
  | .lookupArtist m _ => pyMatchUUID m = false
  | .lookupRelease m _ => pyMatchUUID m = false
  | .lookupRecording m _ => pyMatchUUID m = false
  | .lookupReleaseGroup m _ => pyMatchUUID m = false
  | .browseArtistReleases m l o _ _ =>
      pyMatchUUID m = false ∨ l < 1 ∨ l > 100 ∨ o < 0
  | .browseArtistRecordings m l o =>
      pyMatchUUID m = false ∨ l < 1 ∨ l > 100 ∨ o < 0
  | .lookupByMbid e m _ => e ∉ validEntityTypes ∨ pyMatchUUID m = false

instance : DecidablePred entryInvalid := by
  intro c
  cases c <;> simp only [entryInvalid] <;> infer_instance

/-! ### APIConfig (`config.py` lines 17-35) -/

/-- The fields of the `APIConfig` dataclass that its `__post_init__`
inspects. -/
structure APIConfigData where
  rate_limit : ℚ
  timeout : ℚ
  max_retries : Int
deriving Repr, DecidableEq

/-- Source `APIConfig.__post_init__` (`config.py` lines 28-35): raises
`ValueError` for a non-positive rate limit, a non-positive timeout or a
negative retry count; dataclass construction succeeds exactly when it
returns. -/
def apiConfigPostInit (c : APIConfigData) : Except String APIConfigData :=
  if c.rate_limit ≤ 0 then .error "Rate limit must be positive"
  else if c.timeout ≤ 0 then .error "Timeout must be positive"
  else if c.max_retries < 0 then .error "Max retries must be non-negative"
  else .ok c

/-! ### Client lifecycle (`server.py` lines 40-164) -/

/-- A configuration-override dict as produced by
`parse_config_from_query_params` (`server.py` lines 53-94), restricted to
the recognized override keys `user_agent`, `rate_limit`, `timeout`; a
`none` field is an absent key. -/
structure OverrideConfig where
  user_agent : Option String
  rate_limit : Option ℚ
  timeout : Option ℚ
deriving Repr, DecidableEq

/-- The empty dict `\x7b\x7d`. -/
def OverrideConfig.empty : OverrideConfig := ⟨none, none, none⟩

/-- Python dict truthiness of an override dict: truthy iff it has at
least one key. -/
def OverrideConfig.isTruthy (c : OverrideConfig) : Bool :=
  c.user_agent.isSome || c.rate_limit.isSome || c.timeout.isSome

/-- Python `config or _current_config` (`server.py` line 143): a falsy
first operand (either `None` or the empty dict) yields the second. -/
def pyOrConfig (a b : Option OverrideConfig) : Option OverrideConfig :=
  match a with
  | some c => if c.isTruthy then some c else b
  | none => b

/-- The constructor arguments of the one live `MusicBrainzClient`. -/
structure ClientParams where
  user_agent : String
  rate_limit : ℚ
  timeout : ℚ
deriving Repr, DecidableEq

/-- The process-environment defaults read by `configure_client_from_env`
(`server.py` lines 106-111): `MUSICBRAINZ_USER_AGENT`,
`MUSICBRAINZ_RATE_LIMIT`, `MUSICBRAINZ_TIMEOUT` with their fallbacks. -/
structure EnvDefaults where
  user_agent : String
  rate_limit : ℚ
  timeout : ℚ
deriving Repr, DecidableEq

/-- Source `configure_client_from_env` (`server.py` lines 97-130): environment
defaults overridden per key by the optional config dict; the result is
the parameter tuple passed to `MusicBrainzClient(...)`. -/
def configure_client_from_env (env : EnvDefaults) (config : Option OverrideConfig) :
    ClientParams :=
  match config with
  | none => ⟨env.user_agent, env.rate_limit, env.timeout⟩
  | some c =>
    ⟨c.user_agent.getD env.user_agent,
     c.rate_limit.getD env.rate_limit,
     c.timeout.getD env.timeout⟩

/-- The module-level lifecycle state of `server.py`: the live client
`_client` (an instance identity paired with its constructor parameters),
the fingerprint `_client_config` it was built from, the middleware-set
global `_current_config`, a fresh-identity counter, and an
instrumentation trace of every `await _client.close()` performed. -/
structure ManagerState where
  client : Option (Nat × ClientParams)
  clientConfig : Option OverrideConfig
  currentConfig : Option OverrideConfig
  nextId : Nat
  releases : List Nat
deriving Repr, DecidableEq

/-- The state invariants maintained by `server.py`: the middleware only
stores a truthy dict into `_current_config` (`if config:` at line 712),
instance identities are fresh (below `nextId`), and the live client has
not been closed. -/
def ManagerInv (s : ManagerState) : Prop :=
  s.currentConfig ≠ some OverrideConfig.empty ∧
  (∀ c, s.client = some c → c.1 < s.nextId ∧ c.1 ∉ s.releases) ∧
  (∀ r ∈ s.releases, r < s.nextId) ∧
  s.releases.Nodup

/-- Source `get_client` (`server.py` lines 133-164): compute the effective
config (`config or _current_config`); if no client exists or the
effective config differs from the stored `_client_config`, close any
existing client, build a new one via `configure_client_from_env`, and
store a copy of the effective config (`None` when the effective config is
falsy); otherwise return the existing client unchanged. -/
def get_client (env : EnvDefaults) (s : ManagerState)
    (config : Option OverrideConfig) : ManagerState × (Nat × ClientParams) :=
  let effective := pyOrConfig config s.currentConfig
  let configChanged := s.client.isSome && effective ≠ s.clientConfig
  if s.client = none ∨ configChanged then
    let releasesNew :=
      match s.client with
      | some c => s.releases ++ [c.1]
      | none => s.releases
    let newClient := (s.nextId, configure_client_from_env env effective)
    let storedConfig :=
      match effective with
      | some c => if c.isTruthy then some c else none
      | none => none
    ({ client := some newClient
       clientConfig := storedConfig
       currentConfig := s.currentConfig
       nextId := s.nextId + 1
       releases := releasesNew }, newClient)
  else
    (s, s.client.getD (0, ⟨"", 0, 0⟩))


/-- A concrete client state used as a witness fixture. -/
def clientExample : ClientState :=
  ⟨"ua", 1, 30, clientBaseURL, 0, []⟩

/-- Concrete environment defaults used as a witness fixture. -/
def envExample : EnvDefaults := ⟨"env-ua", 1, 30⟩

/-- A concrete lifecycle state with one live client, used as a witness
fixture. -/
def managerExample : ManagerState :=
  ⟨some (0, ⟨"env-ua", 1, 30⟩), none, none, 1, []⟩

/-- A concrete session override used as a witness fixture. -/
def overrideExample : OverrideConfig := ⟨some "session-ua", none, none⟩

/-- A concrete three-entry cache used as a witness fixture: two entries
expiring at time 5 and one at time 60. -/
def sweepExample : PyCache Nat :=
  ⟨[("a", ⟨1, 5, 0⟩), ("b", ⟨2, 5, 0⟩), ("c", ⟨3, 60, 0⟩)], 300⟩

/-! ### Helper lemmas -/

/-- The permit grant of one `_rate_limit` execution is at least
`min_interval` after the previous stored grant time. -/
theorem acquireGrant_ge (rate last now : ℚ) :
    last + 1 / rate ≤ acquireGrant rate last now := by
  unfold acquireGrant
  split
  · exact le_refl _
  · next h => linarith [not_lt.mp h]

/-- Helper: `dropWhile` skips over a prefix consisting entirely of matching
elements. -/
theorem dropWhile_append_of_all {p : Char → Bool} (w l : List Char)
    (hw : ∀ c ∈ w, p c = true) :
    List.dropWhile p (w ++ l) = List.dropWhile p l := by
  induction w with
  | nil => rfl
  | cons c w ih =>
    simp only [List.cons_append, List.dropWhile_cons,
      hw c (List.mem_cons_self c w), if_true]
    exact ih fun x hx => hw x (List.mem_cons_of_mem c hx)

/-- Helper: `dropWhile` leaves a list whose head does not match untouched. -/
theorem dropWhile_of_head_false {p : Char → Bool} (x : Char) (l : List Char)
    (hx : p x = false) : List.dropWhile p (x :: l) = x :: l := by
  simp [List.dropWhile_cons, hx]

/-- Stripping a whitespace-padded token returns the token, provided the
token is nonempty and neither starts nor ends with whitespace. -/
theorem pystripL_padded (w1 w2 x : List Char) (y : Char)
    (hw1 : ∀ c ∈ w1, pywsChar c = true) (hw2 : ∀ c ∈ w2, pywsChar c = true)
    (hhead : ∃ a l, x = a :: l ∧ pywsChar a = false)
    (hlast : x.getLast? = some y) (hy : pywsChar y = false) :
    pystripL (w1 ++ x ++ w2) = x := by
  obtain ⟨a, l, rfl, ha⟩ := hhead
  unfold pystripL
  rw [List.append_assoc, dropWhile_append_of_all _ _ hw1, List.cons_append,
    dropWhile_of_head_false _ _ ha]
  have hrev : (a :: (l ++ w2)).reverse = w2.reverse ++ (a :: l).reverse := by
    simp
  rw [hrev, dropWhile_append_of_all _ _ (by
    intro c hc
    exact hw2 c (List.mem_reverse.mp hc))]
  have hne : (a :: l).reverse ≠ [] := by simp
  obtain ⟨b, r, hbr⟩ := List.exists_cons_of_ne_nil hne
  have hb : b = y := by
    have h1 : ((a :: l).reverse).head? = some b := by rw [hbr]; rfl
    have h2 : ((a :: l).reverse).head? = (a :: l).getLast? := by
      rw [List.head?_reverse]
    rw [h2, hlast] at h1
    exact (Option.some.injEq _ _ ▸ h1).symm
  rw [hbr, dropWhile_of_head_false _ _ (hb ▸ hy), ← hbr, List.reverse_reverse]

/-- A case-insensitive hex digit is never Python whitespace. -/
theorem pywsChar_eq_false_of_isHexCI (c : Char) (h : isHexCI c = true) :
    pywsChar c = false := by
  by_contra hc
  rw [Bool.not_eq_false] at hc
  simp only [pywsChar, Bool.or_eq_true, decide_eq_true_eq] at hc
  rcases hc with ((((h' | h') | h') | h') | h') | h' <;> subst h' <;>
    exact absurd h (by decide)

/-- Unpack the `uuidCore` check into its per-position facts. -/
theorem uuidCore_spec (cs : List Char) (h : uuidCore cs = true) :
    cs.length = 36 ∧ ∀ i < 36,
      (uuidHyphenPos i = true → cs.getD i ' ' = '-') ∧
      (uuidHyphenPos i = false → isHexCI (cs.getD i ' ') = true) := by
  simp only [uuidCore, Bool.and_eq_true, decide_eq_true_eq, List.all_eq_true,
    List.mem_range] at h
  refine ⟨h.1, fun i hi => ?_⟩
  have := h.2 i hi
  constructor
  · intro hp
    rw [hp] at this
    simpa using this
  · intro hp
    rw [hp] at this
    simpa using this

/-- The first character of a string passing `uuidCore` is a hex digit. -/
theorem uuidCore_head (cs : List Char) (h : uuidCore cs = true) :
    ∃ a l, cs = a :: l ∧ isHexCI a = true := by
  obtain ⟨hlen, hpos⟩ := uuidCore_spec cs h
  have hne : cs ≠ [] := by
    intro hnil
    rw [hnil] at hlen
    simp at hlen
  obtain ⟨a, l, rfl⟩ := List.exists_cons_of_ne_nil hne
  refine ⟨a, l, rfl, ?_⟩
  have := (hpos 0 (by norm_num)).2 (by decide)
  simpa using this

/-- The last character of a string passing `uuidCore` is a hex digit. -/
theorem uuidCore_last (cs : List Char) (h : uuidCore cs = true) :
    ∃ y, cs.getLast? = some y ∧ isHexCI y = true := by
  obtain ⟨hlen, hpos⟩ := uuidCore_spec cs h
  have hne : cs ≠ [] := by
    intro hnil
    rw [hnil] at hlen
    simp at hlen
  have hlt : 35 < cs.length := by omega
  have h35 := (hpos 35 (by norm_num)).2 (by decide)
  refine ⟨cs.getD 35 ' ', ?_, h35⟩
  rw [List.getLast?_eq_getElem?, hlen]
  show cs[35]? = some (cs.getD 35 ' ')
  rw [List.getElem?_eq_getElem hlt, List.getD_eq_getElem cs ' ' hlt]

/-- Stripping a whitespace-padded well-formed UUID recovers the UUID. -/
theorem pystripL_padded_uuid (w1 w2 u : List Char)
    (hw1 : ∀ c ∈ w1, pywsChar c = true) (hw2 : ∀ c ∈ w2, pywsChar c = true)
    (hu : uuidCore u = true) : pystripL (w1 ++ u ++ w2) = u := by
  obtain ⟨a, l, hal, ha⟩ := uuidCore_head u hu
  obtain ⟨y, hy, hyhex⟩ := uuidCore_last u hu
  exact pystripL_padded w1 w2 u y hw1 hw2
    ⟨a, l, hal, pywsChar_eq_false_of_isHexCI a ha⟩ hy
    (pywsChar_eq_false_of_isHexCI y hyhex)

/-- A well-formed UUID strips to itself. -/
theorem pystripL_uuid (u : List Char) (hu : uuidCore u = true) :
    pystripL u = u := by
  have := pystripL_padded_uuid [] [] u (by simp) (by simp) hu
  simpa using this

/-- After deleting a key, no binding for it remains. -/
theorem lookupEntry_eraseKey {α : Type} (l : List (String × CacheEntry α))
    (key : String) (ttl : ℚ) :
    (PyCache.mk (eraseKey l key) ttl).lookupEntry key = none := by
  simp only [PyCache.lookupEntry, Option.map_eq_none', List.find?_eq_none]
  intro p hp
  have := List.of_mem_filter hp
  simpa using this

/-- Folding `del` over a list of keys removes exactly the bindings whose
key occurs in the list. -/
theorem foldl_eraseKey {α : Type} (ks : List String)
    (l : List (String × CacheEntry α)) :
    ks.foldl eraseKey l = l.filter fun p => decide (p.1 ∉ ks) := by
  induction ks generalizing l with
  | nil => simp
  | cons k ks ih =>
    rw [List.foldl_cons, ih]
    show (eraseKey l k).filter _ = _
    rw [eraseKey, List.filter_filter]
    apply List.filter_congr
    intro p _
    by_cases h1 : p.1 = k <;> by_cases h2 : p.1 ∈ ks <;>
      simp [h1, h2, List.mem_cons]

/-! ### C1 -/

/-- Claim C1. For every sequence of completed `acquire()` calls on one rate
limiter configured at `rate` requests per second (rate > 0), the permit
grant times are nondecreasing and consecutive grants are at least
`min_interval = 1 / rate` apart. Concurrent `acquire()` calls execute the
entire check-sleep-set body one at a time under `_rate_limit_lock`
(`musicbrainz_client.py` lines 98-110), so an arbitrary interleaving is
exactly a serialized sequence with arbitrary clock samples `nows`. -/
theorem rate_spacing_C1 (rate last : ℚ) (nows : List ℚ) (hr : 0 < rate) :
    (grantTimes rate last nows).Chain' (fun t t' => 1 / rate ≤ t' - t) ∧
    (grantTimes rate last nows).Chain' (· ≤ ·) := by
  have key : ∀ l ns, (grantTimes rate l ns).Chain' (fun t t' => 1 / rate ≤ t' - t) := by
    intro l ns
    induction ns generalizing l with
    | nil => simp [grantTimes]
    | cons now rest ih =>
      rw [grantTimes, List.chain'_cons']
      refine ⟨?_, ih _⟩
      intro b hb
      cases rest with
      | nil => simp [grantTimes] at hb
      | cons n2 r2 =>
        rw [grantTimes] at hb
        simp only [List.head?_cons, Option.mem_def, Option.some.injEq] at hb
        subst hb
        have := acquireGrant_ge rate (acquireGrant rate l now) n2
        linarith
  refine ⟨key last nows, ?_⟩
  have hpos : 0 < 1 / rate := by positivity
  exact (key last nows).imp fun a b hab => by linarith

/-- Witness for C1 at `rate = 5`, four immediate acquisitions. -/
theorem rate_spacing_C1_witness :
    (grantTimes 5 0 [10, 10, 10, 10]).Chain' (fun t t' => 1 / 5 ≤ t' - t) ∧
    (grantTimes 5 0 [10, 10, 10, 10]).Chain' (· ≤ ·) :=
  rate_spacing_C1 5 0 [10, 10, 10, 10] (by norm_num)

/-! ### C5 -/

/-- Claim C5. A cache `get(key)` returns absent if the key was never set or
was deleted (no binding exists), and likewise if the current time is past
the stored entry's `expires_at`; in the expired case the entry is removed
by the `get` itself, so a stale value is never returned and the expired
entry no longer exists for subsequent operations. -/
theorem cache_get_C5 {α : Type} (c : PyCache α) (key : String) (now : ℚ) :
    (c.lookupEntry key = none → c.get key now = (c, none)) ∧
    (∀ e, c.lookupEntry key = some e → now > e.expires_at →
      (c.get key now).2 = none ∧
      ((c.get key now).1).lookupEntry key = none ∧
      (c.get key now).1.entries = eraseKey c.entries key) := by
  constructor
  · intro h
    simp [PyCache.get, h]
  · intro e he hexp
    have : c.get key now = ({ c with entries := eraseKey c.entries key }, none) := by
      simp [PyCache.get, he, hexp]
    rw [this]
    exact ⟨rfl, lookupEntry_eraseKey c.entries key c.default_ttl, rfl⟩

/-- Witness for C5: an absent key, and an entry expired at `now = 10`. -/
theorem cache_get_C5_witness :
    ((PyCache.mk ([("k", ⟨7, 5, 0⟩)] : List (String × CacheEntry Nat)) 300).get
        "missing" 10 =
      (PyCache.mk [("k", ⟨7, 5, 0⟩)] 300, none)) ∧
    (((PyCache.mk ([("k", ⟨7, 5, 0⟩)] : List (String × CacheEntry Nat)) 300).get
        "k" 10).2 = none ∧
      (((PyCache.mk ([("k", ⟨7, 5, 0⟩)] : List (String × CacheEntry Nat)) 300).get
        "k" 10).1).lookupEntry "k" = none ∧
      (((PyCache.mk ([("k", ⟨7, 5, 0⟩)] : List (String × CacheEntry Nat)) 300).get
        "k" 10).1).entries = eraseKey [("k", ⟨7, 5, 0⟩)] "k") :=
  ⟨(cache_get_C5 (PyCache.mk [("k", ⟨7, 5, 0⟩)] 300) "missing" 10).1 (by decide),
   (cache_get_C5 (PyCache.mk [("k", ⟨7, 5, 0⟩)] 300) "k" 10).2 ⟨7, 5, 0⟩
     (by decide) (by decide)⟩

/-! ### C6 -/

/-- Claim C6: `cleanup_expired` (the sweep) removes exactly the entries
whose `expires_at` is earlier than the time of the call, returns the
number of entries removed, and leaves every unexpired entry in place.
The hypothesis that keys are unique is the Python dict invariant. -/
theorem cache_sweep_C6 {α : Type} (c : PyCache α) (now : ℚ)
    (hnd : (c.entries.map Prod.fst).Nodup) :
    (c.cleanup_expired now).2 =
      (c.entries.filter fun p => decide (p.2.expires_at < now)).length ∧
    (c.cleanup_expired now).1.entries =
      c.entries.filter (fun p => decide (¬ p.2.expires_at < now)) ∧
    (∀ p ∈ c.entries, ¬ p.2.expires_at < now →
      p ∈ (c.cleanup_expired now).1.entries) := by
  have hinj := List.inj_on_of_nodup_map hnd
  have hcong : ∀ p ∈ c.entries,
      decide (p.1 ∉ ((c.entries.filter fun q => decide (now > q.2.expires_at)).map
        Prod.fst)) = decide (¬ p.2.expires_at < now) := by
    intro p hp
    by_cases hexp : p.2.expires_at < now
    · have hmem : p.1 ∈ (c.entries.filter fun q =>
          decide (now > q.2.expires_at)).map Prod.fst := by
        refine List.mem_map_of_mem Prod.fst ?_
        rw [List.mem_filter]
        exact ⟨hp, by simpa [gt_iff_lt] using hexp⟩
      simp [hmem, hexp]
    · have hmem : p.1 ∉ (c.entries.filter fun q =>
          decide (now > q.2.expires_at)).map Prod.fst := by
        intro hm
        obtain ⟨q, hq, hqp⟩ := List.mem_map.mp hm
        rw [List.mem_filter] at hq
        have : q = p := hinj hq.1 hp hqp
        subst this
        exact hexp (by simpa [gt_iff_lt] using hq.2)
      simp [hmem, hexp]
  refine ⟨?_, ?_, ?_⟩
  · show ((c.entries.filter fun q => decide (now > q.2.expires_at)).map
      Prod.fst).length = _
    rw [List.length_map]
  · show (((c.entries.filter fun q => decide (now > q.2.expires_at)).map
      Prod.fst).foldl eraseKey c.entries) = _
    rw [foldl_eraseKey]
    exact List.filter_congr hcong
  · intro p hp hexp
    show p ∈ ((c.entries.filter fun q => decide (now > q.2.expires_at)).map
      Prod.fst).foldl eraseKey c.entries
    rw [foldl_eraseKey, List.mem_filter]
    refine ⟨hp, ?_⟩
    rw [hcong p hp]
    simpa using hexp

/-- Witness for C6, the spec's own example: two expired entries and one
unexpired entry; the sweep returns 2, exactly one entry remains, and the
post-sweep `stats` snapshot counts one total entry. -/
theorem cache_sweep_C6_witness :
    ((sweepExample.cleanup_expired 10).2 =
       (sweepExample.entries.filter fun p => decide (p.2.expires_at < 10)).length ∧
     (sweepExample.cleanup_expired 10).1.entries =
       sweepExample.entries.filter (fun p => decide (¬ p.2.expires_at < 10)) ∧
     (∀ p ∈ sweepExample.entries, ¬ p.2.expires_at < 10 →
       p ∈ (sweepExample.cleanup_expired 10).1.entries)) ∧
    (sweepExample.cleanup_expired 10).2 = 2 ∧
    ((sweepExample.cleanup_expired 10).1.stats 10).total_entries = 1 :=
  ⟨cache_sweep_C6 sweepExample 10 (by decide), by decide, by decide⟩

/-! ### C7 -/

/-- Claim C7. When the HTTP call inside `_make_request` fails with a
transport timeout, the resulting `MusicBrainzTimeoutError` is raised with
`_last_request_time` already updated to this request's permit grant time
(`_rate_limit` runs before the GET), so a subsequent acquire still spaces
itself at least `min_interval` after the failed call's permit. -/
theorem timeout_consumes_permit_C7 (s : ClientState) (now : ℚ) (ep : String)
    (ps : List (String × String)) (msg : String) :
    (make_request s now ep ps (.timeoutExc msg)).2 =
      .error (.timeoutErr ("Request timed out: " ++ msg)) ∧
    (make_request s now ep ps (.timeoutExc msg)).1.lastRequestTime =
      acquireGrant s.rate_limit s.lastRequestTime now ∧
    (∀ now2 : ℚ, 1 / s.rate_limit ≤
      acquireGrant s.rate_limit
        (make_request s now ep ps (.timeoutExc msg)).1.lastRequestTime now2 -
      (make_request s now ep ps (.timeoutExc msg)).1.lastRequestTime) := by
  refine ⟨rfl, rfl, ?_⟩
  intro now2
  have := acquireGrant_ge s.rate_limit
    (make_request s now ep ps (.timeoutExc msg)).1.lastRequestTime now2
  linarith

/-! ### C2 -/

/-- Claim C2 counterexample. The claim says a 503 response always fails
with `RateLimitError`; but when the `Retry-After` header is present with
a non-integer value (HTTP permits an HTTP-date here), `int(retry_after)`
raises `ValueError`, which the catch-all in `_make_request` wraps as a
`MusicBrainzAPIError` with sentinel status 0 — not a rate-limit error. -/
theorem error_mapping_C2_counterexample :
    (make_request clientExample 100 "artist" []
        (.response 503 "busy" (some "tomorrow") "")).2 =
      .error (.api
        ("Unexpected error: invalid literal for int() with base 10: tomorrow")
        0 none) ∧
    (MBError.api
        ("Unexpected error: invalid literal for int() with base 10: tomorrow")
        0 none).isRateLimit = false :=
  ⟨rfl, rfl⟩

/-- Claim C2 amended. The mapping from a non-success response or
transport failure to an error variant is deterministic: 400 yields
`BadRequestError` carrying the body, 404 yields `NotFoundError`, 503
yields `RateLimitError` whose `retry_after` is `int(header)` when the
`Retry-After` header is present, non-empty and accepted by Python's
`int()` (optional ASCII sign and Unicode decimal digits with PEP 515
underscore grouping, surrounded by `int()`-accepted whitespace — so
`"1_0"` gives `retry_after == 10`), and is absent when the header is
absent or empty; a 503 whose header is present but rejected by `int()`
instead yields `GenericAPIError` with sentinel status 0 via the
catch-all; every other non-2xx status yields `GenericAPIError` with
that status and the body; a transport timeout yields `TimeoutError`
and a connect failure yields `ConnectionError`. -/
theorem error_mapping_C2_amended :
    (∀ (s : ClientState) (now : ℚ) (ep : String) (ps : List (String × String))
       (text : String) (hdr : Option String) (js : String),
       (make_request s now ep ps (.response 400 text hdr js)).2 =
         .error (.badRequest ("Bad request: " ++ text))) ∧
    (∀ (s : ClientState) (now : ℚ) (ep : String) (ps : List (String × String))
       (text : String) (hdr : Option String) (js : String),
       (make_request s now ep ps (.response 404 text hdr js)).2 =
         .error (.notFound ("Resource not found: " ++ text))) ∧
    (∀ (s : ClientState) (now : ℚ) (ep : String) (ps : List (String × String))
       (text js : String),
       (make_request s now ep ps (.response 503 text none js)).2 =
         .error (.rateLimit "Rate limit exceeded" none)) ∧
    (∀ (s : ClientState) (now : ℚ) (ep : String) (ps : List (String × String))
       (text js : String),
       (make_request s now ep ps (.response 503 text (some "") js)).2 =
         .error (.rateLimit "Rate limit exceeded" none)) ∧
    (∀ (s : ClientState) (now : ℚ) (ep : String) (ps : List (String × String))
       (text h js : String) (n : Int), h ≠ "" → pyInt h = some n →
       (make_request s now ep ps (.response 503 text (some h) js)).2 =
         .error (.rateLimit "Rate limit exceeded" (some n))) ∧
    (∀ (s : ClientState) (now : ℚ) (ep : String) (ps : List (String × String))
       (text h js : String), h ≠ "" → pyInt h = none →
       (make_request s now ep ps (.response 503 text (some h) js)).2 =
         .error (.api
           ("Unexpected error: invalid literal for int() with base 10: " ++ h)
           0 none)) ∧
    (∀ (s : ClientState) (now : ℚ) (ep : String) (ps : List (String × String))
       (status : Nat) (text : String) (hdr : Option String) (js : String),
       isSuccessStatus status = false → status ≠ 400 → status ≠ 404 →
       status ≠ 503 →
       (make_request s now ep ps (.response status text hdr js)).2 =
         .error (.api ("HTTP " ++ toString status ++ " error") (status : Int)
           (some text))) ∧
    (∀ (s : ClientState) (now : ℚ) (ep : String) (ps : List (String × String))
       (msg : String),
       (make_request s now ep ps (.timeoutExc msg)).2 =
         .error (.timeoutErr ("Request timed out: " ++ msg))) ∧
    (∀ (s : ClientState) (now : ℚ) (ep : String) (ps : List (String × String))
       (msg : String),
       (make_request s now ep ps (.connectExc msg)).2 =
         .error (.connection ("Connection error: " ++ msg))) := by
  refine ⟨?_, ?_, ?_, ?_, ?_, ?_, ?_, ?_, ?_⟩
  · intro s now ep ps text hdr js
    simp [make_request, handle_http_error, isSuccessStatus]
  · intro s now ep ps text hdr js
    simp [make_request, handle_http_error, isSuccessStatus]
  · intro s now ep ps text js
    simp [make_request, handle_http_error, isSuccessStatus]
  · intro s now ep ps text js
    simp [make_request, handle_http_error, isSuccessStatus]
  · intro s now ep ps text h js n hne hpy
    simp [make_request, handle_http_error, isSuccessStatus, hne, hpy]
  · intro s now ep ps text h js hne hpy
    have hs : "Unexpected error: " ++
        ("invalid literal for int() with base 10: " ++ h) =
        "Unexpected error: invalid literal for int() with base 10: " ++ h := by
      rw [← String.append_assoc]
      rfl
    simp [make_request, handle_http_error, isSuccessStatus, hne, hpy, hs]
  · intro s now ep ps status text hdr js hss h400 h404 h503
    simp [make_request, handle_http_error, hss, h400, h404, h503]
  · intro s now ep ps msg
    simp [make_request]
  · intro s now ep ps msg
    simp [make_request]

/-- Witness for the amended C2: a 503 with `Retry-After: 5` yields
`RateLimitError` with `retry_after == 5`; a 503 with the PEP 515
literal `Retry-After: 1_0` yields `RateLimitError` with
`retry_after == 10`, matching `int("1_0") == 10`; and a generic 500
maps to `GenericAPIError`. -/
theorem error_mapping_C2_witness :
    (make_request clientExample 100 "artist" []
        (.response 503 "busy" (some "5") "x")).2 =
      .error (.rateLimit "Rate limit exceeded" (some 5)) ∧
    (make_request clientExample 100 "artist" []
        (.response 503 "busy" (some "1_0") "x")).2 =
      .error (.rateLimit "Rate limit exceeded" (some 10)) ∧
    (make_request clientExample 100 "artist" []
        (.response 500 "oops" none "x")).2 =
      .error (.api ("HTTP " ++ toString 500 ++ " error") ((500 : Nat) : Int)
        (some "oops")) :=
  ⟨error_mapping_C2_amended.2.2.2.2.1 clientExample 100 "artist" [] "busy" "5"
      "x" 5 (by decide) rfl,
   error_mapping_C2_amended.2.2.2.2.1 clientExample 100 "artist" [] "busy"
      "1_0" "x" 10 (by decide) rfl,
   error_mapping_C2_amended.2.2.2.2.2.2.1 clientExample 100 "artist" [] 500
      "oops" none "x" (by decide) (by decide) (by decide) (by decide)⟩

/-! ### C3 -/

/-- A dict is falsy exactly when it is empty. -/
theorem isTruthy_false_iff (c : OverrideConfig) :
    c.isTruthy = false ↔ c = OverrideConfig.empty := by
  rcases c with ⟨ua, rl, t⟩
  cases ua <;> cases rl <;> cases t <;>
    simp [OverrideConfig.isTruthy, OverrideConfig.empty]

/-- Python `config or _current_config` never produces the empty dict when the
global config is not the empty dict (the middleware stores only truthy
dicts). -/
theorem pyOrConfig_ne_empty (a b : Option OverrideConfig)
    (hb : b ≠ some OverrideConfig.empty) :
    pyOrConfig a b ≠ some OverrideConfig.empty := by
  cases a with
  | none => exact hb
  | some c =>
    show (if c.isTruthy = true then some c else b) ≠ some OverrideConfig.empty
    by_cases hc : c.isTruthy = true
    · rw [if_pos hc]
      intro h
      injection h with h
      rw [h] at hc
      simp [OverrideConfig.isTruthy, OverrideConfig.empty] at hc
    · rw [if_neg hc]
      exact hb

/-- Claim C3. For every `get_client` call on a state with a live client:
if the effective requested configuration equals the stored fingerprint,
the very same client instance is returned and the state is unchanged; if
it differs, the old client is closed exactly once (its identity is
appended to the close trace, in which it then occurs exactly once), a
new client built by `configure_client_from_env` from the new effective
configuration is returned, the stored fingerprint is replaced by the new
one, and the state invariants are preserved. -/
theorem client_lifecycle_C3 (env : EnvDefaults) (s : ManagerState)
    (cfg : Option OverrideConfig) (c0 : Nat × ClientParams)
    (hInv : ManagerInv s) (hLive : s.client = some c0) :
    (pyOrConfig cfg s.currentConfig = s.clientConfig →
       get_client env s cfg = (s, c0)) ∧
    (pyOrConfig cfg s.currentConfig ≠ s.clientConfig →
       (get_client env s cfg).1.releases = s.releases ++ [c0.1] ∧
       (get_client env s cfg).1.releases.count c0.1 = 1 ∧
       (get_client env s cfg).2 =
         (s.nextId, configure_client_from_env env (pyOrConfig cfg s.currentConfig)) ∧
       (get_client env s cfg).2.1 ≠ c0.1 ∧
       (get_client env s cfg).1.client = some ((get_client env s cfg).2) ∧
       (get_client env s cfg).1.clientConfig = pyOrConfig cfg s.currentConfig ∧
       ManagerInv (get_client env s cfg).1) := by
  obtain ⟨hcur, hcl, hrel, hnd⟩ := hInv
  obtain ⟨hlt, hnotin⟩ := hcl c0 hLive
  constructor
  · intro heq
    unfold get_client
    simp [hLive, heq]
  · intro hne
    have hcond : (s.client = none ∨
        (s.client.isSome && decide (pyOrConfig cfg s.currentConfig ≠ s.clientConfig)) = true) := by
      right
      simp [hLive, hne]
    have hstep : get_client env s cfg =
        ({ client := some (s.nextId,
              configure_client_from_env env (pyOrConfig cfg s.currentConfig))
           clientConfig :=
             match pyOrConfig cfg s.currentConfig with
             | some c => if c.isTruthy then some c else none
             | none => none
           currentConfig := s.currentConfig
           nextId := s.nextId + 1
           releases := s.releases ++ [c0.1] },
         (s.nextId, configure_client_from_env env (pyOrConfig cfg s.currentConfig))) := by
      unfold get_client
      rw [if_pos hcond, hLive]
    have hstored :
        (match pyOrConfig cfg s.currentConfig with
         | some c => if c.isTruthy then some c else none
         | none => none) = pyOrConfig cfg s.currentConfig := by
      have hnem := pyOrConfig_ne_empty cfg s.currentConfig hcur
      cases hE : pyOrConfig cfg s.currentConfig with
      | none => rfl
      | some c =>
        rw [hE] at hnem
        have : c.isTruthy = true := by
          by_contra htc
          have : c = OverrideConfig.empty :=
            (isTruthy_false_iff c).mp (by simpa using htc)
          exact hnem (by rw [this])
        simp [this]
    rw [hstep]
    refine ⟨rfl, ?_, rfl, ?_, rfl, hstored, ?_, ?_, ?_, ?_⟩
    · rw [List.count_append]
      rw [List.count_eq_zero.mpr hnotin]
      simp
    · intro heq
      have heq' : s.nextId = c0.1 := heq
      omega
    · exact hcur
    · intro c hc
      injection hc with hc
      subst hc
      refine ⟨Nat.lt_succ_self _, ?_⟩
      intro hmem
      rcases List.mem_append.mp hmem with hmem | hmem
      · exact absurd (hrel _ hmem) (lt_irrefl _)
      · rw [List.mem_singleton] at hmem
        have hmem' : s.nextId = c0.1 := hmem
        omega
    · intro r hr
      rcases List.mem_append.mp hr with hr | hr
      · exact Nat.lt_succ_of_lt (hrel _ hr)
      · rw [List.mem_singleton] at hr
        rw [hr]
        exact Nat.lt_succ_of_lt hlt
    · rw [List.nodup_append]
      exact ⟨hnd, List.nodup_singleton _, by
        intro x hx hx'
        rw [List.mem_singleton] at hx'
        rw [hx'] at hx
        exact hnotin hx⟩

/-- Witness for C3: re-acquiring with the same (absent) override returns
the identical instance; acquiring with a new session override closes the
old client once and rebuilds from the override. -/
theorem client_lifecycle_C3_witness :
    (get_client envExample managerExample none =
       (managerExample, (0, ⟨"env-ua", 1, 30⟩))) ∧
    ((get_client envExample managerExample (some overrideExample)).1.releases =
       [] ++ [0] ∧
     (get_client envExample managerExample (some overrideExample)).1.releases.count 0 = 1 ∧
     (get_client envExample managerExample (some overrideExample)).2 =
       (1, configure_client_from_env envExample
         (pyOrConfig (some overrideExample) none)) ∧
     (get_client envExample managerExample (some overrideExample)).2.1 ≠ 0 ∧
     (get_client envExample managerExample (some overrideExample)).1.client =
       some ((get_client envExample managerExample (some overrideExample)).2) ∧
     (get_client envExample managerExample (some overrideExample)).1.clientConfig =
       pyOrConfig (some overrideExample) none ∧
     ManagerInv (get_client envExample managerExample (some overrideExample)).1) := by
  have hInv : ManagerInv managerExample := by
    refine ⟨by simp [managerExample], ?_, ?_, ?_⟩
    · intro c hc
      simp only [managerExample] at hc
      injection hc with hc
      subst hc
      exact ⟨Nat.zero_lt_one, by simp [managerExample]⟩
    · intro r hr
      simp [managerExample] at hr
    · simp [managerExample]
  have hLive : managerExample.client = some (0, ⟨"env-ua", 1, 30⟩) := rfl
  constructor
  · exact (client_lifecycle_C3 envExample managerExample none
      (0, ⟨"env-ua", 1, 30⟩) hInv hLive).1 rfl
  · have := (client_lifecycle_C3 envExample managerExample (some overrideExample)
      (0, ⟨"env-ua", 1, 30⟩) hInv hLive).2 (by
        simp [pyOrConfig, overrideExample, OverrideConfig.isTruthy, managerExample])
    simpa [managerExample] using this

/-! ### C4 -/

/-- Claim C4. Every public entry point, on any input that is invalid in the
claim's sense (empty/whitespace-only query, limit outside [1, 100],
negative offset, identifier failing the client's MBID validation, or —
for the generic lookup — an entity category outside the allow-list),
fails with `MusicBrainzValidationError` before any network activity: the
client state is returned unchanged, so the request log is unchanged (no
HTTP request was issued) and `_last_request_time` is unchanged (no
rate-limiter permit was consumed). -/
theorem validation_before_network_C4 (call : EntryCall) (s : ClientState)
    (now : ℚ) (out : HttpOutcome) (h : entryInvalid call) :
    (runEntry call s now out).1 = s ∧
    (runEntry call s now out).1.requests = s.requests ∧
    (runEntry call s now out).1.lastRequestTime = s.lastRequestTime ∧
    ∃ m, (runEntry call s now out).2 = .error (.validation m) := by
  have main : (runEntry call s now out).1 = s ∧
      ∃ m, (runEntry call s now out).2 = .error (.validation m) := by
    cases call with
    | searchArtist q l o =>
      simp only [runEntry, search_artist, search_entity, entryInvalid] at h ⊢
      split_ifs with h1 h2 h3
      · exact ⟨rfl, _, rfl⟩
      · exact ⟨rfl, _, rfl⟩
      · exact ⟨rfl, _, rfl⟩
      · rcases h with h | h | h | h
        · exact absurd h h1
        · exact absurd (Or.inl h) h2
        · exact absurd (Or.inr h) h2
        · exact absurd h h3
    | searchRelease q l o =>
      simp only [runEntry, search_release, search_entity, entryInvalid] at h ⊢
      split_ifs with h1 h2 h3
      · exact ⟨rfl, _, rfl⟩
      · exact ⟨rfl, _, rfl⟩
      · exact ⟨rfl, _, rfl⟩
      · rcases h with h | h | h | h
        · exact absurd h h1
        · exact absurd (Or.inl h) h2
        · exact absurd (Or.inr h) h2
        · exact absurd h h3
    | searchRecording q l o =>
      simp only [runEntry, search_recording, search_entity, entryInvalid] at h ⊢
      split_ifs with h1 h2 h3
      · exact ⟨rfl, _, rfl⟩
      · exact ⟨rfl, _, rfl⟩
      · exact ⟨rfl, _, rfl⟩
      · rcases h with h | h | h | h
        · exact absurd h h1
        · exact absurd (Or.inl h) h2
        · exact absurd (Or.inr h) h2
        · exact absurd h h3
    | searchReleaseGroup q l o =>
      simp only [runEntry, search_release_group, search_entity, entryInvalid] at h ⊢
      split_ifs with h1 h2 h3
      · exact ⟨rfl, _, rfl⟩
      · exact ⟨rfl, _, rfl⟩
      · exact ⟨rfl, _, rfl⟩
      · rcases h with h | h | h | h
        · exact absurd h h1
        · exact absurd (Or.inl h) h2
        · exact absurd (Or.inr h) h2
        · exact absurd h h3
    | lookupArtist m i =>
      simp only [entryInvalid] at h
      simp [runEntry, lookup_artist, lookup_entity, client_validate_mbid, h]
    | lookupRelease m i =>
      simp only [entryInvalid] at h
      simp [runEntry, lookup_release, lookup_entity, client_validate_mbid, h]
    | lookupRecording m i =>
      simp only [entryInvalid] at h
      simp [runEntry, lookup_recording, lookup_entity, client_validate_mbid, h]
    | lookupReleaseGroup m i =>
      simp only [entryInvalid] at h
      simp [runEntry, lookup_release_group, lookup_entity, client_validate_mbid, h]
    | browseArtistReleases m l o t st =>
      simp only [entryInvalid] at h
      by_cases hm : pyMatchUUID m = true
      · simp only [runEntry, browse_artist_releases, client_validate_mbid, hm,
          if_true]
        split_ifs with h1 h2
        · exact ⟨rfl, _, rfl⟩
        · exact ⟨rfl, _, rfl⟩
        · rcases h with h | h | h | h
          · rw [hm] at h
            exact absurd h (by simp)
          · exact absurd (Or.inl h) h1
          · exact absurd (Or.inr h) h1
          · exact absurd h h2
      · have hm' : pyMatchUUID m = false := by simpa using hm
        simp [runEntry, browse_artist_releases, client_validate_mbid, hm']
    | browseArtistRecordings m l o =>
      simp only [entryInvalid] at h
      by_cases hm : pyMatchUUID m = true
      · simp only [runEntry, browse_artist_recordings, client_validate_mbid, hm,
          if_true]
        split_ifs with h1 h2
        · exact ⟨rfl, _, rfl⟩
        · exact ⟨rfl, _, rfl⟩
        · rcases h with h | h | h | h
          · rw [hm] at h
            exact absurd h (by simp)
          · exact absurd (Or.inl h) h1
          · exact absurd (Or.inr h) h1
          · exact absurd h h2
      · have hm' : pyMatchUUID m = false := by simpa using hm
        simp [runEntry, browse_artist_recordings, client_validate_mbid, hm']
    | lookupByMbid e m i =>
      simp only [entryInvalid] at h
      by_cases he : e ∈ validEntityTypes
      · rcases h with h | h
        · exact absurd he h
        · simp [runEntry, lookup_by_mbid, client_validate_mbid, he, h]
      · simp [runEntry, lookup_by_mbid, he]
  exact ⟨main.1, by rw [main.1], by rw [main.1], main.2⟩

/-- Witness for C4: a whitespace-only search query, and a malformed MBID
on the generic lookup, each rejected without touching the state. -/
theorem validation_before_network_C4_witness :
    ((runEntry (.searchArtist "   " 25 0) clientExample 50 (.timeoutExc "t")).1 =
       clientExample ∧
     (runEntry (.searchArtist "   " 25 0) clientExample 50
       (.timeoutExc "t")).1.requests = clientExample.requests ∧
     (runEntry (.searchArtist "   " 25 0) clientExample 50
       (.timeoutExc "t")).1.lastRequestTime = clientExample.lastRequestTime ∧
     ∃ m, (runEntry (.searchArtist "   " 25 0) clientExample 50
       (.timeoutExc "t")).2 = .error (.validation m)) ∧
    ((runEntry (.lookupByMbid "artist" "not-a-uuid" none) clientExample 50
       (.timeoutExc "t")).1 = clientExample ∧
     (runEntry (.lookupByMbid "artist" "not-a-uuid" none) clientExample 50
       (.timeoutExc "t")).1.requests = clientExample.requests ∧
     (runEntry (.lookupByMbid "artist" "not-a-uuid" none) clientExample 50
       (.timeoutExc "t")).1.lastRequestTime = clientExample.lastRequestTime ∧
     ∃ m, (runEntry (.lookupByMbid "artist" "not-a-uuid" none) clientExample 50
       (.timeoutExc "t")).2 = .error (.validation m)) :=
  ⟨validation_before_network_C4 (.searchArtist "   " 25 0) clientExample 50
     (.timeoutExc "t") (Or.inl (by decide)),
   validation_before_network_C4 (.lookupByMbid "artist" "not-a-uuid" none)
     clientExample 50 (.timeoutExc "t") (Or.inr (by decide))⟩

/-! ### C8 -/

/-- Claim C8: `normalize` validates first: whenever validation rejects the
input, it fails (raising on invalid input); for every string that is a
well-formed identifier (case-insensitively), it returns the lower-cased
identifier, in particular at the spec's example. As a Lean function the
embedding is pure by construction, matching the source, which performs
no I/O and mutates nothing. -/
theorem normalize_mbid_C8 :
    (∀ s, validate_mbid s = false →
       normalize_mbid s = .error ("Invalid MBID format: " ++ s)) ∧
    (∀ s, uuidCore s.data = true →
       validate_mbid s = true ∧ normalize_mbid s = .ok (pyLower s)) ∧
    normalize_mbid "B10BBBFC-CF9E-42E0-BE17-E2C3E1D2600D" =
      .ok "b10bbbfc-cf9e-42e0-be17-e2c3e1d2600d" := by
  refine ⟨?_, ?_, by rfl⟩
  · intro s hs
    simp [normalize_mbid, hs]
  · intro s hu
    have hne : s ≠ "" := by
      intro hc
      have hdata : s.data = [] := by rw [hc]
      rw [hdata] at hu
      exact absurd hu (by decide)
    have hstrip : pystrip s = s := by
      show (⟨pystripL s.data⟩ : String) = s
      rw [pystripL_uuid s.data hu]
    have hval : validate_mbid s = true := by
      unfold validate_mbid
      rw [if_neg hne, hstrip]
      simp [pyMatchUUID, hu]
    exact ⟨hval, by simp [normalize_mbid, hval, hstrip]⟩

/-- Witness for C8: a malformed identifier is rejected; the upper-case
example identifier validates and normalizes to its lower-casing. -/
theorem normalize_mbid_C8_witness :
    normalize_mbid "not-a-uuid" =
      .error ("Invalid MBID format: " ++ "not-a-uuid") ∧
    (validate_mbid "B10BBBFC-CF9E-42E0-BE17-E2C3E1D2600D" = true ∧
     normalize_mbid "B10BBBFC-CF9E-42E0-BE17-E2C3E1D2600D" =
       .ok (pyLower "B10BBBFC-CF9E-42E0-BE17-E2C3E1D2600D")) :=
  ⟨normalize_mbid_C8.1 "not-a-uuid" (by decide),
   normalize_mbid_C8.2.1 "B10BBBFC-CF9E-42E0-BE17-E2C3E1D2600D" (by decide)⟩

/-! ### C9 -/

/-- Claim C9 counterexample. The claim says constructing the API client
with a non-positive rate limit fails with `ValidationError` and produces
no instance; but `MusicBrainzClient.__init__` performs no validation:
with `rate_limit = 0` it succeeds and produces a client. -/
theorem client_init_C9_counterexample :
    clientInit none 0 30 none =
      .ok ⟨clientDefaultUserAgent, 0, 30, clientBaseURL, 0, []⟩ ∧
    (clientInit none 0 30 none).isOk = true :=
  ⟨rfl, rfl⟩

/-- Claim C9 amended: `MusicBrainzClient.__init__` performs no
validation and always produces a client instance, for any rate limit and
timeout; the rejection of non-positive rate limits and timeouts at
construction time lives only in the separate `APIConfig` dataclass,
whose `__post_init__` raises `ValueError` — and `APIConfig` is not
consulted when the client is built. -/
theorem client_init_C9_amended :
    (∀ (ua : Option String) (rl t : ℚ) (b : Option String),
       clientInit ua rl t b =
         .ok ⟨ua.getD clientDefaultUserAgent, rl, t, b.getD clientBaseURL,
           0, []⟩) ∧
    (∀ cfg : APIConfigData, cfg.rate_limit ≤ 0 →
       apiConfigPostInit cfg = .error "Rate limit must be positive") ∧
    (∀ cfg : APIConfigData, 0 < cfg.rate_limit → cfg.timeout ≤ 0 →
       apiConfigPostInit cfg = .error "Timeout must be positive") := by
  refine ⟨fun ua rl t b => rfl, ?_, ?_⟩
  · intro cfg hrl
    simp [apiConfigPostInit, hrl]
  · intro cfg hrl ht
    simp [apiConfigPostInit, not_le.mpr hrl, ht]

/-- Witness for the amended C9. -/
theorem client_init_C9_witness :
    clientInit none 2 30 none =
      .ok ⟨clientDefaultUserAgent, 2, 30, clientBaseURL, 0, []⟩ ∧
    apiConfigPostInit ⟨0, 30, 3⟩ = .error "Rate limit must be positive" ∧
    apiConfigPostInit ⟨1, 0, 3⟩ = .error "Timeout must be positive" :=
  ⟨client_init_C9_amended.1 none 2 30 none,
   client_init_C9_amended.2.1 ⟨0, 30, 3⟩ (by norm_num),
   client_init_C9_amended.2.2 ⟨1, 0, 3⟩ (by norm_num) (by norm_num)⟩

/-! ### C10 -/

/-- Claim C10: `MBIDUtils.validate_mbid` strips surrounding whitespace
before matching: for every well-formed identifier and any leading and
trailing whitespace padding, validation accepts the padded string, and
`normalize_mbid` on the padded string returns the lower-cased identifier
with the padding removed. -/
theorem mbid_strip_padding_C10 (u : String) (w1 w2 : List Char)
    (hu : uuidCore u.data = true)
    (h1 : ∀ c ∈ w1, pywsChar c = true) (h2 : ∀ c ∈ w2, pywsChar c = true) :
    validate_mbid (String.mk (w1 ++ u.data ++ w2)) = true ∧
    normalize_mbid (String.mk (w1 ++ u.data ++ w2)) = .ok (pyLower u) := by
  have hstrip : pystrip (String.mk (w1 ++ u.data ++ w2)) = u := by
    show (⟨pystripL (w1 ++ u.data ++ w2)⟩ : String) = u
    rw [pystripL_padded_uuid w1 w2 u.data h1 h2 hu]
  have hne : String.mk (w1 ++ u.data ++ w2) ≠ "" := by
    intro hc
    have hdata : w1 ++ u.data ++ w2 = [] := congrArg String.data hc
    have := congrArg List.length hdata
    have hulen : u.data.length = 36 := by
      have := uuidCore_spec u.data hu
      exact this.1
    simp [hulen] at this
  have hval : validate_mbid (String.mk (w1 ++ u.data ++ w2)) = true := by
    unfold validate_mbid
    rw [if_neg hne, hstrip]
    simp [pyMatchUUID, hu]
  refine ⟨hval, ?_⟩
  simp only [normalize_mbid, hval, if_true, hstrip]

/-- Witness for C10: the example identifier padded with a leading space
and tab and a trailing newline still validates, and normalizes to the
unpadded lower-cased identifier. -/
theorem mbid_strip_padding_C10_witness :
    validate_mbid (String.mk
      ([' ', '\t'] ++ "B10BBBFC-CF9E-42E0-BE17-E2C3E1D2600D".data ++ ['\n'])) =
      true ∧
    normalize_mbid (String.mk
      ([' ', '\t'] ++ "B10BBBFC-CF9E-42E0-BE17-E2C3E1D2600D".data ++ ['\n'])) =
      .ok (pyLower "B10BBBFC-CF9E-42E0-BE17-E2C3E1D2600D") :=
  mbid_strip_padding_C10 "B10BBBFC-CF9E-42E0-BE17-E2C3E1D2600D" [' ', '\t']
    ['\n'] (by decide) (by decide) (by decide)
